import Mathlib

/-!
Verification of the floor-plan engine: geometry resolution
(`floor-plan.utils.ts`), validation (`floor-plan-validation`), and the
statistics / estimation engine (`statistics.ts`).

JavaScript numbers are modelled by `ℚ`; `Math.ceil` / `Math.floor` /
`Math.round` become `ceilQ` / `floorQ` / `roundQ`.  Optional fields of the
JSON data model become `Option` fields, and the `??` operator becomes
`Option.getD`.  Render-only fields (materials, furniture, structural
elements) are not read by any engine function and are omitted from the
record types.
-/

/-- `Math.ceil` on rationals, result kept as a rational (JS numbers stay
numbers after `Math.ceil`). -/
def ceilQ (q : ℚ) : ℚ := ((q.ceil : ℤ) : ℚ)

/-- `Math.floor` on rationals. -/
def floorQ (q : ℚ) : ℚ := ((q.floor : ℤ) : ℚ)

/-- `Math.round` on rationals (half-up, as in JS). -/
def roundQ (q : ℚ) : ℤ := (q + 1/2).floor

/-- `String.prototype.toLowerCase`, restricted to the char-wise lowering
that matters for the ASCII keywords of the room-type heuristic. -/
def toLowerStr (s : String) : String := ⟨s.data.map Char.toLower⟩

/-- Helper for substring search: does `sub` occur in the second list? -/
def strContainsAux (sub : List Char) : List Char → Bool
  | [] => sub.isEmpty
  | c :: t => sub.isPrefixOf (c :: t) || strContainsAux sub t

/-- `String.prototype.includes`. -/
def strContains (s sub : String) : Bool := strContainsAux sub.data s.data

/-- All ordered pairs `(l[i], l[j])` with `i < j`, in the order produced by
the nested `for i / for j > i` loops of the validation engine. -/
def orderedPairs {α : Type} : List α → List (α × α)
  | [] => []
  | x :: xs => xs.map (fun y => (x, y)) ++ orderedPairs xs

-- ============================================
-- Data model (`floor-plan` type definitions)
-- ============================================

inductive WallSide where
  | north
  | east
  | south
  | west
  deriving DecidableEq

/-- The cardinal side as the string used in issue ids and messages. -/
def sideStr : WallSide → String
  | .north => "north"
  | .east => "east"
  | .south => "south"
  | .west => "west"

inductive OpeningType where
  | door
  | window
  deriving DecidableEq

structure Opening where
  type : OpeningType
  offset : ℚ
  width : Option ℚ
  height : Option ℚ
  fromFloor : Option ℚ
  to_ : Option String
  deriving DecidableEq

structure Wall where
  length : Option ℚ
  height : Option ℚ
  thickness : Option ℚ
  exists_ : Option Bool
  openings : Option (List Opening)
  deriving DecidableEq

structure Walls where
  north : Wall
  east : Wall
  south : Wall
  west : Wall
  deriving DecidableEq

/-- `room.walls[side]`. -/
def Walls.get (w : Walls) : WallSide → Wall
  | .north => w.north
  | .east => w.east
  | .south => w.south
  | .west => w.west

structure Position where
  x : ℚ
  y : ℚ
  deriving DecidableEq

structure Room where
  id : String
  name : Option String
  position : Position
  walls : Walls
  deriving DecidableEq

structure Floor where
  id : String
  name : Option String
  rooms : List Room
  deriving DecidableEq

structure WallDefaults where
  height : Option ℚ
  thickness : Option ℚ
  deriving DecidableEq

structure DoorDefaults where
  width : Option ℚ
  height : Option ℚ
  deriving DecidableEq

structure WindowDefaults where
  width : Option ℚ
  height : Option ℚ
  fromFloor : Option ℚ
  deriving DecidableEq

structure Defaults where
  wall : Option WallDefaults
  door : Option DoorDefaults
  window : Option WindowDefaults
  deriving DecidableEq

inductive MeasureUnit where
  | cm
  | mm
  | m
  deriving DecidableEq

structure FloorPlan where
  version : String
  unit : MeasureUnit
  scale : Option ℚ
  defaults : Option Defaults
  floor : Floor
  deriving DecidableEq

-- ============================================
-- Geometry calculator (`floor-plan.utils.ts`)
-- ============================================

structure OpeningGeometry where
  type : OpeningType
  x : ℚ
  y : ℚ
  width : ℚ
  height : ℚ
  fromFloor : ℚ
  to_ : Option String
  direction : WallSide
  deriving DecidableEq

structure WallGeometry where
  x1 : ℚ
  y1 : ℚ
  x2 : ℚ
  y2 : ℚ
  length : ℚ
  thickness : ℚ
  exists_ : Bool
  openings : List OpeningGeometry
  deriving DecidableEq

structure WallsGeometry where
  north : WallGeometry
  east : WallGeometry
  south : WallGeometry
  west : WallGeometry
  deriving DecidableEq

structure RoomGeometry where
  id : String
  name : String
  x : ℚ
  y : ℚ
  width : ℚ
  height : ℚ
  walls : WallsGeometry
  deriving DecidableEq

structure FloorGeometry where
  width : ℚ
  height : ℚ
  rooms : List RoomGeometry
  deriving DecidableEq

structure ResolvedWall where
  length : ℚ
  height : ℚ
  thickness : ℚ
  exists_ : Bool
  openings : List Opening
  deriving DecidableEq

structure ResolvedOpening where
  type : OpeningType
  offset : ℚ
  width : ℚ
  height : ℚ
  fromFloor : ℚ
  to_ : Option String
  deriving DecidableEq

/-- `resolveWall`: three-tier resolution (explicit value, plan defaults,
hardcoded constants 280 / 15 / true / empty openings). -/
def resolveWall (wall : Wall) (defaults : Option Defaults) : ResolvedWall :=
  { length := wall.length.getD 0
    height := wall.height.getD (((defaults.bind Defaults.wall).bind WallDefaults.height).getD 280)
    thickness := wall.thickness.getD (((defaults.bind Defaults.wall).bind WallDefaults.thickness).getD 15)
    exists_ := wall.exists_.getD true
    openings := wall.openings.getD [] }

/-- `resolveOpening`: per-type defaults (door 80x210, window 120x120,
sill 100), through the plan-level defaults first. -/
def resolveOpening (o : Opening) (defaults : Option Defaults) : ResolvedOpening :=
  match o.type with
  | .window =>
      let typeDefaults := (defaults.bind Defaults.window).getD ⟨some 120, some 120, some 100⟩
      { type := o.type
        offset := o.offset
        width := o.width.getD (typeDefaults.width.getD 120)
        height := o.height.getD (typeDefaults.height.getD 120)
        fromFloor := o.fromFloor.getD (((defaults.bind Defaults.window).bind WindowDefaults.fromFloor).getD 100)
        to_ := o.to_ }
  | .door =>
      let typeDefaults := (defaults.bind Defaults.door).getD ⟨some 80, some 210⟩
      { type := o.type
        offset := o.offset
        width := o.width.getD (typeDefaults.width.getD 80)
        height := o.height.getD (typeDefaults.height.getD 210)
        fromFloor := o.fromFloor.getD 0
        to_ := o.to_ }

/-- `calculateWallGeometry`. -/
def calculateWallGeometry (room : Room) (side : WallSide) (defaults : Option Defaults)
    (scale : ℚ) : WallGeometry :=
  let wall := room.walls.get side
  let resolved := resolveWall wall defaults
  let x := room.position.x
  let y := room.position.y
  let roomWidth := max (room.walls.north.length.getD 0) (room.walls.south.length.getD 0)
  let roomHeight := max (room.walls.east.length.getD 0) (room.walls.west.length.getD 0)
  let seg : ℚ × ℚ × ℚ × ℚ :=
    match side with
    | .north => (x * scale, y * scale, (x + roomWidth) * scale, y * scale)
    | .south => (x * scale, (y + roomHeight) * scale, (x + roomWidth) * scale, (y + roomHeight) * scale)
    | .east => ((x + roomWidth) * scale, y * scale, (x + roomWidth) * scale, (y + roomHeight) * scale)
    | .west => (x * scale, y * scale, x * scale, (y + roomHeight) * scale)
  let openings : List OpeningGeometry := resolved.openings.map (fun opening =>
    let r := resolveOpening opening defaults
    let pos : ℚ × ℚ :=
      match side with
      | .north => ((x + r.offset) * scale, y * scale)
      | .south => ((x + r.offset) * scale, (y + roomHeight) * scale)
      | .east => ((x + roomWidth) * scale, (y + r.offset) * scale)
      | .west => (x * scale, (y + r.offset) * scale)
    { type := r.type
      x := pos.1
      y := pos.2
      width := r.width * scale
      height := r.height * scale
      fromFloor := r.fromFloor * scale
      to_ := r.to_
      direction := side })
  { x1 := seg.1
    y1 := seg.2.1
    x2 := seg.2.2.1
    y2 := seg.2.2.2
    length := resolved.length * scale
    thickness := resolved.thickness * scale
    exists_ := resolved.exists_
    openings := openings }

/-- `calculateRoomGeometry`. -/
def calculateRoomGeometry (room : Room) (defaults : Option Defaults) (scale : ℚ) : RoomGeometry :=
  let roomWidth := max (room.walls.north.length.getD 0) (room.walls.south.length.getD 0)
  let roomHeight := max (room.walls.east.length.getD 0) (room.walls.west.length.getD 0)
  { id := room.id
    name := room.name.getD room.id
    x := room.position.x * scale
    y := room.position.y * scale
    width := roomWidth * scale
    height := roomHeight * scale
    walls :=
      { north := calculateWallGeometry room .north defaults scale
        east := calculateWallGeometry room .east defaults scale
        south := calculateWallGeometry room .south defaults scale
        west := calculateWallGeometry room .west defaults scale } }

/-- `calculateFloorGeometry` (plan scale defaults to 0.2). -/
def calculateFloorGeometry (plan : FloorPlan) : FloorGeometry :=
  let scale := plan.scale.getD (1/5)
  let rooms := plan.floor.rooms.map (fun room => calculateRoomGeometry room plan.defaults scale)
  let maxX := rooms.foldl (fun acc r => max acc (r.x + r.width)) 0
  let maxY := rooms.foldl (fun acc r => max acc (r.y + r.height)) 0
  { width := maxX, height := maxY, rooms := rooms }

-- ============================================
-- Validation engine (`floor-plan-validation`)
-- ============================================

inductive ValidationSeverity where
  | error
  | warning
  deriving DecidableEq

inductive IssueType where
  | overlap
  | duplicateWall
  | invalidDimension
  deriving DecidableEq

structure OverlapRect where
  x : ℚ
  y : ℚ
  width : ℚ
  height : ℚ
  deriving DecidableEq

structure SegmentPos where
  x1 : ℚ
  y1 : ℚ
  x2 : ℚ
  y2 : ℚ
  deriving DecidableEq

structure IssueDetails where
  wallSide : Option WallSide
  overlapArea : Option OverlapRect
  wallPosition : Option SegmentPos
  deriving DecidableEq

structure ValidationIssue where
  id : String
  severity : ValidationSeverity
  type : IssueType
  message : String
  roomIds : List String
  details : Option IssueDetails
  deriving DecidableEq

structure RoomBounds where
  id : String
  name : String
  x : ℚ
  y : ℚ
  width : ℚ
  height : ℚ
  deriving DecidableEq

structure WallSegment where
  roomId : String
  roomName : String
  side : WallSide
  x1 : ℚ
  y1 : ℚ
  x2 : ℚ
  y2 : ℚ
  exists_ : Bool
  deriving DecidableEq

/-- `getRoomBounds`. -/
def getRoomBounds (room : Room) : RoomBounds :=
  { id := room.id
    name := room.name.getD room.id
    x := room.position.x
    y := room.position.y
    width := max (room.walls.north.length.getD 0) (room.walls.south.length.getD 0)
    height := max (room.walls.east.length.getD 0) (room.walls.west.length.getD 0) }

/-- `rectanglesOverlap`: axis-aligned intersection, reported only when both
extents exceed the 1-unit tolerance. -/
def rectanglesOverlap (r1 r2 : RoomBounds) : Option OverlapRect :=
  let x1 := max r1.x r2.x
  let y1 := max r1.y r2.y
  let x2 := min (r1.x + r1.width) (r2.x + r2.width)
  let y2 := min (r1.y + r1.height) (r2.y + r2.height)
  if x2 - x1 > 1 ∧ y2 - y1 > 1 then some { x := x1, y := y1, width := x2 - x1, height := y2 - y1 }
  else none

/-- `getWallSegment`. -/
def getWallSegment (room : Room) (side : WallSide) : WallSegment :=
  let bounds := getRoomBounds room
  let wall := room.walls.get side
  let seg : ℚ × ℚ × ℚ × ℚ :=
    match side with
    | .north => (bounds.x, bounds.y, bounds.x + bounds.width, bounds.y)
    | .south => (bounds.x, bounds.y + bounds.height, bounds.x + bounds.width, bounds.y + bounds.height)
    | .east => (bounds.x + bounds.width, bounds.y, bounds.x + bounds.width, bounds.y + bounds.height)
    | .west => (bounds.x, bounds.y, bounds.x, bounds.y + bounds.height)
  { roomId := room.id
    roomName := room.name.getD room.id
    side := side
    x1 := seg.1
    y1 := seg.2.1
    x2 := seg.2.2.1
    y2 := seg.2.2.2
    exists_ := decide (wall.exists_ ≠ some false) }

/-- `wallsOverlap` of the validation engine (1-unit tolerance on the fixed
coordinate, strict 1-unit threshold on the overlapping range). -/
def wallsOverlap (w1 w2 : WallSegment) : Bool :=
  let w1Horizontal : Bool := decide (w1.y1 = w1.y2)
  let w2Horizontal : Bool := decide (w2.y1 = w2.y2)
  if w1Horizontal ≠ w2Horizontal then false
  else if w1Horizontal then
    if |w1.y1 - w2.y1| > 1 then false
    else
      let minX1 := min w1.x1 w1.x2
      let maxX1 := max w1.x1 w1.x2
      let minX2 := min w2.x1 w2.x2
      let maxX2 := max w2.x1 w2.x2
      let overlapStart := max minX1 minX2
      let overlapEnd := min maxX1 maxX2
      decide (overlapEnd - overlapStart > 1)
  else
    if |w1.x1 - w2.x1| > 1 then false
    else
      let minY1 := min w1.y1 w1.y2
      let maxY1 := max w1.y1 w1.y2
      let minY2 := min w2.y1 w2.y2
      let maxY2 := max w2.y1 w2.y2
      let overlapStart := max minY1 minY2
      let overlapEnd := min maxY1 maxY2
      decide (overlapEnd - overlapStart > 1)

/-- The issue pushed by `detectOverlaps` for a pair of bounds and their
intersection rectangle. -/
def overlapIssueOf (b1 b2 : RoomBounds) (overlap : OverlapRect) : ValidationIssue :=
  { id := "overlap-" ++ b1.id ++ "-" ++ b2.id
    severity := .error
    type := .overlap
    message := "\"" ++ b1.name ++ "\" sobrepõe \"" ++ b2.name ++ "\""
    roomIds := [b1.id, b2.id]
    details := some { wallSide := none, overlapArea := some overlap, wallPosition := none } }

/-- `detectOverlaps`: every unordered pair of room bounding boxes. -/
def detectOverlaps (rooms : List Room) : List ValidationIssue :=
  (orderedPairs (rooms.map getRoomBounds)).filterMap
    (fun p => (rectanglesOverlap p.1 p.2).map (overlapIssueOf p.1 p.2))

/-- All wall segments of all rooms, in the collection order of
`detectDuplicateWalls` (north, east, south, west per room). -/
def allWallSegments (rooms : List Room) : List WallSegment :=
  (rooms.map (fun room =>
    [WallSide.north, WallSide.east, WallSide.south, WallSide.west].map
      (getWallSegment room))).flatten

/-- The filter applied to a pair of wall segments by `detectDuplicateWalls`:
skip same room, skip virtual walls, then `wallsOverlap`. -/
def dupPass (w1 w2 : WallSegment) : Bool :=
  decide (w1.roomId ≠ w2.roomId) && w1.exists_ && w2.exists_ && wallsOverlap w1 w2

/-- The issue pushed by `detectDuplicateWalls` for an overlapping pair. -/
def dupIssueOf (w1 w2 : WallSegment) : ValidationIssue :=
  { id := "duplicate-wall-" ++ w1.roomId ++ "-" ++ sideStr w1.side ++ "-" ++ w2.roomId ++ "-" ++ sideStr w2.side
    severity := .warning
    type := .duplicateWall
    message := "Parede dupla: \"" ++ w1.roomName ++ "\" (" ++ sideStr w1.side ++ ") e \"" ++ w2.roomName ++ "\" (" ++ sideStr w2.side ++ ")"
    roomIds := [w1.roomId, w2.roomId]
    details := some { wallSide := some w1.side, overlapArea := none,
                      wallPosition := some { x1 := w1.x1, y1 := w1.y1, x2 := w1.x2, y2 := w1.y2 } } }

/-- `detectDuplicateWalls`: every unordered pair of wall segments of
different rooms where both walls exist and the segments overlap. -/
def detectDuplicateWalls (rooms : List Room) : List ValidationIssue :=
  ((orderedPairs (allWallSegments rooms)).filter (fun p => dupPass p.1 p.2)).map
    (fun p => dupIssueOf p.1 p.2)

/-- The issue pushed by `detectInvalidDimensions` for a degenerate room. -/
def invalidDimIssueOf (room : Room) : ValidationIssue :=
  { id := "invalid-dimension-" ++ room.id
    severity := .error
    type := .invalidDimension
    message := "\"" ++ (room.name.getD room.id) ++ "\" tem dimensões inválidas"
    roomIds := [room.id]
    details := none }

/-- `detectInvalidDimensions`: rooms with effective width or height ≤ 0. -/
def detectInvalidDimensions (rooms : List Room) : List ValidationIssue :=
  rooms.filterMap (fun room =>
    let bounds := getRoomBounds room
    if bounds.width ≤ 0 ∨ bounds.height ≤ 0 then some (invalidDimIssueOf room) else none)

/-- `validateFloorPlan`: invalid dimensions, then overlaps, then duplicate
walls; the empty plan short-circuits to no issues. -/
def validateFloorPlan (plan : FloorPlan) : List ValidationIssue :=
  let rooms := plan.floor.rooms
  if rooms.isEmpty then []
  else detectInvalidDimensions rooms ++ detectOverlaps rooms ++ detectDuplicateWalls rooms

-- ============================================
-- Estimate configuration (`estimate-config.ts`)
-- ============================================

structure BrickConfig where
  width : ℚ
  height : ℚ
  length : ℚ
  mortarThickness : ℚ
  wasteFactor : ℚ
  deriving DecidableEq

structure PaintConfig where
  coverage : ℚ
  primerCoverage : ℚ
  puttyCoverage : ℚ
  coats : ℚ
  primerCoats : ℚ
  puttyPercentage : ℚ
  deriving DecidableEq

structure FlooringConfig where
  wasteFactor : ℚ
  groutPerM2 : ℚ
  adhesivePerM2 : ℚ
  deriving DecidableEq

structure RoomElectricalConfig where
  outlets : ℚ
  switches : ℚ
  lights : ℚ
  deriving DecidableEq

structure ElectricalByRoomType where
  sala : RoomElectricalConfig
  cozinha : RoomElectricalConfig
  banheiro : RoomElectricalConfig
  quarto : RoomElectricalConfig
  areaServico : RoomElectricalConfig
  default : RoomElectricalConfig
  deriving DecidableEq

structure ElectricalConfig where
  wirePerPoint : ℚ
  byRoomType : ElectricalByRoomType
  deriving DecidableEq

structure RoomPlumbingConfig where
  coldWater : ℚ
  hotWater : ℚ
  drains : ℚ
  deriving DecidableEq

structure PlumbingByRoomType where
  cozinha : RoomPlumbingConfig
  banheiro : RoomPlumbingConfig
  areaServico : RoomPlumbingConfig
  deriving DecidableEq

structure PlumbingConfig where
  pipePerPoint : ℚ
  byRoomType : PlumbingByRoomType
  deriving DecidableEq

structure PricesConfig where
  brick : ℚ
  mortar_m3 : ℚ
  paint_18l : ℚ
  primer_18l : ℚ
  putty_25kg : ℚ
  tile_m2 : ℚ
  grout_kg : ℚ
  tile_adhesive_kg : ℚ
  outlet : ℚ
  switch : ℚ
  light_point : ℚ
  water_point : ℚ
  drain_point : ℚ
  wire_m : ℚ
  pipe_m : ℚ
  deriving DecidableEq

structure EstimateConfig where
  brick : BrickConfig
  paint : PaintConfig
  flooring : FlooringConfig
  electrical : ElectricalConfig
  plumbing : PlumbingConfig
  prices : PricesConfig
  deriving DecidableEq

/-- `DEFAULT_ESTIMATE_CONFIG`. -/
def DEFAULT_ESTIMATE_CONFIG : EstimateConfig :=
  { brick := { width := 14, height := 19, length := 9, mortarThickness := 1, wasteFactor := 105/100 }
    paint := { coverage := 10, primerCoverage := 12, puttyCoverage := 3,
               coats := 2, primerCoats := 1, puttyPercentage := 70 }
    flooring := { wasteFactor := 110/100, groutPerM2 := 1/2, adhesivePerM2 := 5 }
    electrical :=
      { wirePerPoint := 8
        byRoomType :=
          { sala := { outlets := 6, switches := 2, lights := 2 }
            cozinha := { outlets := 8, switches := 2, lights := 2 }
            banheiro := { outlets := 2, switches := 1, lights := 2 }
            quarto := { outlets := 4, switches := 2, lights := 1 }
            areaServico := { outlets := 3, switches := 1, lights := 1 }
            default := { outlets := 3, switches := 1, lights := 1 } } }
    plumbing :=
      { pipePerPoint := 3
        byRoomType :=
          { cozinha := { coldWater := 2, hotWater := 1, drains := 2 }
            banheiro := { coldWater := 3, hotWater := 2, drains := 3 }
            areaServico := { coldWater := 2, hotWater := 1, drains := 2 } } }
    prices := { brick := 85/100, mortar_m3 := 350, paint_18l := 280, primer_18l := 150,
                putty_25kg := 45, tile_m2 := 45, grout_kg := 8, tile_adhesive_kg := 120/100,
                outlet := 25, switch := 20, light_point := 80, water_point := 120,
                drain_point := 100, wire_m := 350/100, pipe_m := 12 } }

-- ============================================
-- Statistics / estimation engine (`statistics.ts`)
-- ============================================

structure WallStats where
  side : WallSide
  length : ℚ
  height : ℚ
  thickness : ℚ
  area : ℚ
  areaWithoutOpenings : ℚ
  openingsArea : ℚ
  brickCount : ℚ
  exists_ : Bool
  deriving DecidableEq

structure RoomStats where
  id : String
  name : String
  type : String
  floorArea : ℚ
  perimeter : ℚ
  wallsArea : ℚ
  wallsAreaWithoutOpenings : ℚ
  volume : ℚ
  walls : List WallStats
  brickCount : ℚ
  deriving DecidableEq

structure MeasurementsStats where
  totalFloorArea : ℚ
  totalWallsArea : ℚ
  totalWallsAreaWithoutOpenings : ℚ
  totalVolume : ℚ
  totalPerimeter : ℚ
  roomCount : ℕ
  rooms : List RoomStats
  deriving DecidableEq

structure MasonryMaterials where
  bricks : ℚ
  mortar : ℚ
  deriving DecidableEq

structure PaintMaterials where
  paint : ℚ
  primer : ℚ
  putty : ℚ
  ceilingPaint : ℚ
  paintableWallArea : ℚ
  ceilingArea : ℚ
  deriving DecidableEq

structure FlooringMaterials where
  tiles : ℚ
  grout : ℚ
  adhesive : ℚ
  netArea : ℚ
  deriving DecidableEq

structure ElectricalRoomRow where
  roomName : String
  outlets : ℚ
  switches : ℚ
  lights : ℚ
  deriving DecidableEq

structure ElectricalMaterials where
  outlets : ℚ
  switches : ℚ
  lightPoints : ℚ
  wireEstimate : ℚ
  byRoom : List ElectricalRoomRow
  deriving DecidableEq

structure PlumbingRoomRow where
  roomName : String
  coldWater : ℚ
  hotWater : ℚ
  drains : ℚ
  deriving DecidableEq

structure PlumbingMaterials where
  coldWaterPoints : ℚ
  hotWaterPoints : ℚ
  drainPoints : ℚ
  pipeEstimate : ℚ
  byRoom : List PlumbingRoomRow
  deriving DecidableEq

structure MaterialsEstimate where
  masonry : MasonryMaterials
  paint : PaintMaterials
  flooring : FlooringMaterials
  electrical : ElectricalMaterials
  plumbing : PlumbingMaterials
  deriving DecidableEq

structure BudgetItem where
  category : String
  item : String
  quantity : ℚ
  unit : String
  unitPrice : ℚ
  total : ℚ
  deriving DecidableEq

structure BudgetSubtotals where
  masonry : ℚ
  paint : ℚ
  flooring : ℚ
  electrical : ℚ
  plumbing : ℚ
  deriving DecidableEq

structure BudgetEstimate where
  items : List BudgetItem
  subtotals : BudgetSubtotals
  total : ℚ
  perM2 : ℚ
  deriving DecidableEq

structure FloorPlanStats where
  measurements : MeasurementsStats
  materials : MaterialsEstimate
  budget : BudgetEstimate
  deriving DecidableEq

structure ResolvedWallDefaults where
  height : ℚ
  thickness : ℚ
  deriving DecidableEq

structure ResolvedOpeningDefaults where
  width : ℚ
  height : ℚ
  deriving DecidableEq

/-- `getWallDefaults` of the statistics engine. -/
def getWallDefaults (defaults : Option Defaults) : ResolvedWallDefaults :=
  { height := ((defaults.bind Defaults.wall).bind WallDefaults.height).getD 280
    thickness := ((defaults.bind Defaults.wall).bind WallDefaults.thickness).getD 15 }

/-- `getOpeningDefaults` of the statistics engine. -/
def getOpeningDefaults (type : OpeningType) (defaults : Option Defaults) : ResolvedOpeningDefaults :=
  match type with
  | .door =>
      { width := ((defaults.bind Defaults.door).bind DoorDefaults.width).getD 80
        height := ((defaults.bind Defaults.door).bind DoorDefaults.height).getD 210 }
  | .window =>
      { width := ((defaults.bind Defaults.window).bind WindowDefaults.width).getD 120
        height := ((defaults.bind Defaults.window).bind WindowDefaults.height).getD 120 }

/-- `calculateOpeningsArea` (cm²). -/
def calculateOpeningsArea (wall : Wall) (defaults : Option Defaults) : ℚ :=
  match wall.openings with
  | none => 0
  | some openings =>
      if openings.isEmpty then 0
      else openings.foldl (fun total opening =>
        let openingDefaults := getOpeningDefaults opening.type defaults
        let width := opening.width.getD openingDefaults.width
        let height := opening.height.getD openingDefaults.height
        total + width * height) 0

/-- `calculateBrickCount`: one `Math.ceil` applied after the waste factor. -/
def calculateBrickCount (areaCm2 : ℚ) (config : EstimateConfig) : ℚ :=
  let brickWidth := config.brick.width + config.brick.mortarThickness
  let brickHeight := config.brick.height + config.brick.mortarThickness
  let brickArea := brickWidth * brickHeight
  ceilQ (areaCm2 / brickArea * config.brick.wasteFactor)

/-- `cm2ToM2`. -/
def cm2ToM2 (cm2 : ℚ) : ℚ := cm2 / 10000

/-- `cmToM`. -/
def cmToM (cm : ℚ) : ℚ := cm / 100

/-- `getRoomType`: keyword heuristic over lower-cased id and name. -/
def getRoomType (room : Room) : String :=
  let id := toLowerStr room.id
  let name := toLowerStr (room.name.getD "")
  if strContains id "sala" || strContains name "sala" then "sala"
  else if strContains id "cozinha" || strContains name "cozinha" then "cozinha"
  else if strContains id "banheiro" || strContains name "banheiro" || strContains name "wc" then "banheiro"
  else if strContains id "quarto" || strContains name "quarto" || strContains name "dormit" then "quarto"
  else if strContains id "servico" || strContains name "servico" || strContains name "lavanderia" then "area-servico"
  else "default"

/-- `calculateWallStats`. -/
def calculateWallStats (wall : Wall) (side : WallSide) (defaults : Option Defaults)
    (config : EstimateConfig) : WallStats :=
  let wallDefaults := getWallDefaults defaults
  let length := wall.length.getD 0
  let height := wall.height.getD wallDefaults.height
  let thickness := wall.thickness.getD wallDefaults.thickness
  let exists_ : Bool := decide (wall.exists_ ≠ some false)
  let areaCm2 := length * height
  let openingsAreaCm2 := calculateOpeningsArea wall defaults
  let areaWithoutOpeningsCm2 := max 0 (areaCm2 - openingsAreaCm2)
  let brickCount := if exists_ then calculateBrickCount areaWithoutOpeningsCm2 config else 0
  { side := side
    length := length
    height := height
    thickness := thickness
    area := cm2ToM2 areaCm2
    areaWithoutOpenings := cm2ToM2 areaWithoutOpeningsCm2
    openingsArea := cm2ToM2 openingsAreaCm2
    brickCount := brickCount
    exists_ := exists_ }

/-- `calculateRoomStats`. -/
def calculateRoomStats (room : Room) (defaults : Option Defaults)
    (config : EstimateConfig) : RoomStats :=
  let wallDefaults := getWallDefaults defaults
  let width := max (room.walls.north.length.getD 0) (room.walls.south.length.getD 0)
  let height := max (room.walls.east.length.getD 0) (room.walls.west.length.getD 0)
  let wallHeight := wallDefaults.height
  let floorAreaCm2 := width * height
  let floorArea := cm2ToM2 floorAreaCm2
  let sides : List WallSide := [.north, .east, .south, .west]
  let perimeterCm := sides.foldl (fun acc side =>
    if (room.walls.get side).exists_ ≠ some false then acc + (room.walls.get side).length.getD 0
    else acc) 0
  let perimeter := cmToM perimeterCm
  let walls := sides.map (fun side => calculateWallStats (room.walls.get side) side defaults config)
  let wallsArea := ((walls.filter (fun w => w.exists_)).foldl (fun sum w => sum + w.area) 0)
  let wallsAreaWithoutOpenings :=
    ((walls.filter (fun w => w.exists_)).foldl (fun sum w => sum + w.areaWithoutOpenings) 0)
  let volumeCm3 := floorAreaCm2 * wallHeight
  let volume := volumeCm3 / 1000000
  let brickCount := walls.foldl (fun sum w => sum + w.brickCount) 0
  { id := room.id
    name := room.name.getD room.id
    type := getRoomType room
    floorArea := floorArea
    perimeter := perimeter
    wallsArea := wallsArea
    wallsAreaWithoutOpenings := wallsAreaWithoutOpenings
    volume := volume
    walls := walls
    brickCount := brickCount }

/-- `calculateMeasurements`. -/
def calculateMeasurements (rooms : List RoomStats) : MeasurementsStats :=
  { totalFloorArea := rooms.foldl (fun sum r => sum + r.floorArea) 0
    totalWallsArea := rooms.foldl (fun sum r => sum + r.wallsArea) 0
    totalWallsAreaWithoutOpenings := rooms.foldl (fun sum r => sum + r.wallsAreaWithoutOpenings) 0
    totalVolume := rooms.foldl (fun sum r => sum + r.volume) 0
    totalPerimeter := rooms.foldl (fun sum r => sum + r.perimeter) 0
    roomCount := rooms.length
    rooms := rooms }

/-- `calculateMasonry`: ~0.25 m³ of mortar per 1000 bricks. -/
def calculateMasonry (measurements : MeasurementsStats) : MasonryMaterials :=
  let bricks := measurements.rooms.foldl (fun sum r => sum + r.brickCount) 0
  let mortarPer1000 : ℚ := 1/4
  { bricks := bricks, mortar := bricks / 1000 * mortarPer1000 }

/-- `calculatePaint`. -/
def calculatePaint (measurements : MeasurementsStats) (config : EstimateConfig) : PaintMaterials :=
  let paintableWallArea := measurements.totalWallsAreaWithoutOpenings * (3/2)
  let ceilingArea := measurements.totalFloorArea
  let totalPaintArea := paintableWallArea * config.paint.coats
  let paint := ceilQ (totalPaintArea / config.paint.coverage)
  let primer := ceilQ (paintableWallArea * config.paint.primerCoats / config.paint.primerCoverage)
  let putty := ceilQ (paintableWallArea * (config.paint.puttyPercentage / 100) / config.paint.puttyCoverage)
  let ceilingPaint := ceilQ (ceilingArea * config.paint.coats / config.paint.coverage)
  { paint := paint, primer := primer, putty := putty, ceilingPaint := ceilingPaint,
    paintableWallArea := paintableWallArea, ceilingArea := ceilingArea }

/-- `calculateFlooring`. -/
def calculateFlooring (measurements : MeasurementsStats) (config : EstimateConfig) : FlooringMaterials :=
  let netArea := measurements.totalFloorArea
  { tiles := netArea * config.flooring.wasteFactor
    grout := ceilQ (netArea * config.flooring.groutPerM2)
    adhesive := ceilQ (netArea * config.flooring.adhesivePerM2)
    netArea := netArea }

/-- Lookup `config.electrical.byRoomType[roomType] || default`. -/
def electricalFor (cfg : ElectricalConfig) (roomType : String) : RoomElectricalConfig :=
  if roomType = "sala" then cfg.byRoomType.sala
  else if roomType = "cozinha" then cfg.byRoomType.cozinha
  else if roomType = "banheiro" then cfg.byRoomType.banheiro
  else if roomType = "quarto" then cfg.byRoomType.quarto
  else if roomType = "area-servico" then cfg.byRoomType.areaServico
  else cfg.byRoomType.default

/-- `calculateElectrical`. -/
def calculateElectrical (rooms : List RoomStats) (config : EstimateConfig) : ElectricalMaterials :=
  let byRoom := rooms.map (fun room =>
    let estimate := electricalFor config.electrical room.type
    ({ roomName := room.name, outlets := estimate.outlets, switches := estimate.switches,
       lights := estimate.lights } : ElectricalRoomRow))
  let outlets := byRoom.foldl (fun sum r => sum + r.outlets) 0
  let switches := byRoom.foldl (fun sum r => sum + r.switches) 0
  let lightPoints := byRoom.foldl (fun sum r => sum + r.lights) 0
  { outlets := outlets, switches := switches, lightPoints := lightPoints,
    wireEstimate := (outlets + switches + lightPoints) * config.electrical.wirePerPoint,
    byRoom := byRoom }

/-- Lookup `config.plumbing.byRoomType[roomType]` (no fallback: rooms whose
type has no plumbing entry are skipped). -/
def plumbingFor (cfg : PlumbingConfig) (roomType : String) : Option RoomPlumbingConfig :=
  if roomType = "cozinha" then some cfg.byRoomType.cozinha
  else if roomType = "banheiro" then some cfg.byRoomType.banheiro
  else if roomType = "area-servico" then some cfg.byRoomType.areaServico
  else none

/-- `calculatePlumbing`. -/
def calculatePlumbing (rooms : List RoomStats) (config : EstimateConfig) : PlumbingMaterials :=
  let byRoom := rooms.filterMap (fun room =>
    (plumbingFor config.plumbing room.type).map (fun estimate =>
      ({ roomName := room.name, coldWater := estimate.coldWater, hotWater := estimate.hotWater,
         drains := estimate.drains } : PlumbingRoomRow)))
  let coldWaterPoints := byRoom.foldl (fun sum r => sum + r.coldWater) 0
  let hotWaterPoints := byRoom.foldl (fun sum r => sum + r.hotWater) 0
  let drainPoints := byRoom.foldl (fun sum r => sum + r.drains) 0
  { coldWaterPoints := coldWaterPoints, hotWaterPoints := hotWaterPoints,
    drainPoints := drainPoints,
    pipeEstimate := (coldWaterPoints + hotWaterPoints + drainPoints) * config.plumbing.pipePerPoint,
    byRoom := byRoom }

/-- `calculateBudget`: line items, category subtotals, grand total and
per-m² figure (0 when the floor area is not positive). -/
def calculateBudget (materials : MaterialsEstimate) (totalArea : ℚ)
    (config : EstimateConfig) : BudgetEstimate :=
  let prices := config.prices
  let paintCans := ceilQ (materials.paint.paint / 18)
  let primerCans := ceilQ (materials.paint.primer / 18)
  let puttySacks := ceilQ (materials.paint.putty / 25)
  let ceilingCans := ceilQ (materials.paint.ceilingPaint / 18)
  let totalWaterPoints := materials.plumbing.coldWaterPoints + materials.plumbing.hotWaterPoints
  let items : List BudgetItem :=
    [ { category := "Alvenaria", item := "Tijolos cerâmicos 6 furos",
        quantity := materials.masonry.bricks, unit := "un", unitPrice := prices.brick,
        total := materials.masonry.bricks * prices.brick },
      { category := "Alvenaria", item := "Argamassa de assentamento",
        quantity := ceilQ (materials.masonry.mortar * 10) / 10, unit := "m³",
        unitPrice := prices.mortar_m3, total := materials.masonry.mortar * prices.mortar_m3 },
      { category := "Pintura", item := "Tinta látex (paredes) 18L",
        quantity := paintCans, unit := "lata", unitPrice := prices.paint_18l,
        total := paintCans * prices.paint_18l },
      { category := "Pintura", item := "Selador/Fundo 18L",
        quantity := primerCans, unit := "lata", unitPrice := prices.primer_18l,
        total := primerCans * prices.primer_18l },
      { category := "Pintura", item := "Massa corrida 25kg",
        quantity := puttySacks, unit := "saco", unitPrice := prices.putty_25kg,
        total := puttySacks * prices.putty_25kg },
      { category := "Pintura", item := "Tinta látex (teto) 18L",
        quantity := ceilingCans, unit := "lata", unitPrice := prices.paint_18l,
        total := ceilingCans * prices.paint_18l },
      { category := "Piso",
        item := "Piso cerâmico (c/ " ++ toString (roundQ ((config.flooring.wasteFactor - 1) * 100)) ++ "% perda)",
        quantity := ceilQ (materials.flooring.tiles * 10) / 10, unit := "m²",
        unitPrice := prices.tile_m2, total := materials.flooring.tiles * prices.tile_m2 },
      { category := "Piso", item := "Rejunte",
        quantity := materials.flooring.grout, unit := "kg", unitPrice := prices.grout_kg,
        total := materials.flooring.grout * prices.grout_kg },
      { category := "Piso", item := "Argamassa colante",
        quantity := materials.flooring.adhesive, unit := "kg", unitPrice := prices.tile_adhesive_kg,
        total := materials.flooring.adhesive * prices.tile_adhesive_kg },
      { category := "Elétrica", item := "Tomadas",
        quantity := materials.electrical.outlets, unit := "un", unitPrice := prices.outlet,
        total := materials.electrical.outlets * prices.outlet },
      { category := "Elétrica", item := "Interruptores",
        quantity := materials.electrical.switches, unit := "un", unitPrice := prices.switch,
        total := materials.electrical.switches * prices.switch },
      { category := "Elétrica", item := "Pontos de luz",
        quantity := materials.electrical.lightPoints, unit := "un", unitPrice := prices.light_point,
        total := materials.electrical.lightPoints * prices.light_point },
      { category := "Elétrica", item := "Fiação 2.5mm",
        quantity := materials.electrical.wireEstimate, unit := "m", unitPrice := prices.wire_m,
        total := materials.electrical.wireEstimate * prices.wire_m } ]
    ++ (if totalWaterPoints > 0 then
        [ { category := "Hidráulica", item := "Pontos de água",
            quantity := totalWaterPoints, unit := "un", unitPrice := prices.water_point,
            total := totalWaterPoints * prices.water_point } ] else [])
    ++ (if materials.plumbing.drainPoints > 0 then
        [ { category := "Hidráulica", item := "Pontos de esgoto",
            quantity := materials.plumbing.drainPoints, unit := "un", unitPrice := prices.drain_point,
            total := materials.plumbing.drainPoints * prices.drain_point } ] else [])
    ++ (if materials.plumbing.pipeEstimate > 0 then
        [ { category := "Hidráulica", item := "Tubulação PVC",
            quantity := materials.plumbing.pipeEstimate, unit := "m", unitPrice := prices.pipe_m,
            total := materials.plumbing.pipeEstimate * prices.pipe_m } ] else [])
  let subtotalFor := fun (cat : String) =>
    (items.filter (fun i => decide (i.category = cat))).foldl (fun sum i => sum + i.total) 0
  let subtotals : BudgetSubtotals :=
    { masonry := subtotalFor "Alvenaria"
      paint := subtotalFor "Pintura"
      flooring := subtotalFor "Piso"
      electrical := subtotalFor "Elétrica"
      plumbing := subtotalFor "Hidráulica" }
  let total := subtotals.masonry + subtotals.paint + subtotals.flooring
    + subtotals.electrical + subtotals.plumbing
  let perM2 := if totalArea > 0 then total / totalArea else 0
  { items := items, subtotals := subtotals, total := total, perM2 := perM2 }

/-- `calculateFloorPlanStats`: the main entry point of the statistics
engine. -/
def calculateFloorPlanStats (floorPlan : FloorPlan) (config : EstimateConfig) : FloorPlanStats :=
  let rooms := floorPlan.floor.rooms.map (fun room =>
    calculateRoomStats room floorPlan.defaults config)
  let measurements := calculateMeasurements rooms
  let materials : MaterialsEstimate :=
    { masonry := calculateMasonry measurements
      paint := calculatePaint measurements config
      flooring := calculateFlooring measurements config
      electrical := calculateElectrical rooms config
      plumbing := calculatePlumbing rooms config }
  let budget := calculateBudget materials measurements.totalFloorArea config
  { measurements := measurements, materials := materials, budget := budget }

-- ============================================
-- Example inputs used by witnesses and counterexamples
-- ============================================

/-- A wall with only a length, everything else defaulted. -/
def lenWall (l : ℚ) : Wall :=
  { length := some l, height := none, thickness := none, exists_ := none, openings := none }

/-- A rectangular room: north/south walls of length `w`, east/west walls of
length `h`. -/
def simpleRoom (id : String) (x y w h : ℚ) : Room :=
  { id := id, name := none, position := { x := x, y := y }
    walls := { north := lenWall w, east := lenWall h, south := lenWall w, west := lenWall h } }

/-- A plan with no rooms. -/
def emptyPlan : FloorPlan :=
  { version := "1.0", unit := .cm, scale := none, defaults := none
    floor := { id := "f1", name := none, rooms := [] } }

/-- An all-zero materials estimate. -/
def zeroMaterials : MaterialsEstimate :=
  { masonry := { bricks := 0, mortar := 0 }
    paint := { paint := 0, primer := 0, putty := 0, ceilingPaint := 0,
               paintableWallArea := 0, ceilingArea := 0 }
    flooring := { tiles := 0, grout := 0, adhesive := 0, netArea := 0 }
    electrical := { outlets := 0, switches := 0, lightPoints := 0, wireEstimate := 0, byRoom := [] }
    plumbing := { coldWaterPoints := 0, hotWaterPoints := 0, drainPoints := 0,
                  pipeEstimate := 0, byRoom := [] } }

-- ============================================
-- C2: defaults resolution agreement
-- ============================================

/-- C2: for every wall and every `Defaults` record, the geometry
calculator's `resolveWall` and the statistics engine's inline resolution in
`calculateWallStats` agree on effective length, height, thickness and
existence flag, and both follow the three-tier rule: length = explicit else
0; height = explicit else `defaults.wall.height` else 280; thickness =
explicit else `defaults.wall.thickness` else 15; exists = explicit else
true. -/
theorem resolution_agreement (wall : Wall) (side : WallSide) (d : Option Defaults)
    (cfg : EstimateConfig) :
    (calculateWallStats wall side d cfg).length = (resolveWall wall d).length ∧
    (calculateWallStats wall side d cfg).height = (resolveWall wall d).height ∧
    (calculateWallStats wall side d cfg).thickness = (resolveWall wall d).thickness ∧
    (calculateWallStats wall side d cfg).exists_ = (resolveWall wall d).exists_ ∧
    (resolveWall wall d).length = wall.length.getD 0 ∧
    (resolveWall wall d).height =
      wall.height.getD (((d.bind Defaults.wall).bind WallDefaults.height).getD 280) ∧
    (resolveWall wall d).thickness =
      wall.thickness.getD (((d.bind Defaults.wall).bind WallDefaults.thickness).getD 15) ∧
    (resolveWall wall d).exists_ = wall.exists_.getD true := by
  refine ⟨rfl, rfl, rfl, ?_, rfl, rfl, rfl, rfl⟩
  rcases h : wall.exists_ with _ | b
  · simp [calculateWallStats, resolveWall, h]
  · cases b <;> simp [calculateWallStats, resolveWall, h]

-- ============================================
-- C10: validation is insensitive to the scale field
-- ============================================

/-- C10: `validateFloorPlan` reads only the room list; replacing the plan's
`scale` by any other value leaves the issue list unchanged, so validation
works entirely in unscaled plan units. -/
theorem validate_scale_invariant (plan : FloorPlan) (s1 s2 : Option ℚ) :
    validateFloorPlan { plan with scale := s1 } =
      validateFloorPlan { plan with scale := s2 } := rfl

-- ============================================
-- C9: empty plan and zero-area budget
-- ============================================

/-- C9: a plan with no rooms yields the valid zero-sized geometry (not an
error), and with a zero total floor area the budget's per-m² figure is
exactly 0 (division is guarded). -/
theorem empty_plan_and_zero_area_budget :
    (∀ plan : FloorPlan, plan.floor.rooms = [] →
        calculateFloorGeometry plan = { width := 0, height := 0, rooms := [] }) ∧
    (∀ (m : MaterialsEstimate) (cfg : EstimateConfig),
        (calculateBudget m 0 cfg).perM2 = 0) := by
  constructor
  · intro plan h
    simp [calculateFloorGeometry, h]
  · intro m cfg
    simp [calculateBudget]

/-- Witness for C9 at concrete inputs. -/
theorem empty_plan_and_zero_area_budget_witness :
    calculateFloorGeometry emptyPlan = { width := 0, height := 0, rooms := [] } ∧
    (calculateBudget zeroMaterials 0 DEFAULT_ESTIMATE_CONFIG).perM2 = 0 :=
  ⟨empty_plan_and_zero_area_budget.1 emptyPlan rfl,
   empty_plan_and_zero_area_budget.2 zeroMaterials DEFAULT_ESTIMATE_CONFIG⟩

-- ============================================
-- C1: brick count formula
-- ============================================

/-- Net wall area in cm² as the statistics engine computes it: gross area
minus openings, clamped at zero. -/
def netWallAreaCm2 (wall : Wall) (d : Option Defaults) : ℚ :=
  max 0 ((wall.length.getD 0) * (wall.height.getD (getWallDefaults d).height)
    - calculateOpeningsArea wall d)

/-- Modelled from the spec: the claimed brick count
`ceil(ceil(netArea_cm2 / brickUnitArea) × wasteFactor)` with two ceiling
roundings. -/
def claimedBrickCountDoubleCeil (areaCm2 : ℚ) (config : EstimateConfig) : ℚ :=
  let brickArea := (config.brick.width + config.brick.mortarThickness)
    * (config.brick.height + config.brick.mortarThickness)
  ceilQ (ceilQ (areaCm2 / brickArea) * config.brick.wasteFactor)

/-- A 1 cm × 1 cm existing wall: the single- and double-ceiling formulas
disagree on it. -/
def tinyWall : Wall :=
  { length := some 1, height := some 1, thickness := none, exists_ := none, openings := none }

/-- C1 counterexample: for an existing 1 cm² wall under the default config
the code computes `ceil((1/300)·1.05) = 1` brick, while the claimed
double-ceiling formula gives `ceil(ceil(1/300)·1.05) = 2`. -/
theorem brick_double_ceil_counterexample :
    (calculateWallStats tinyWall .north none DEFAULT_ESTIMATE_CONFIG).exists_ = true ∧
    netWallAreaCm2 tinyWall none = 1 ∧
    (calculateWallStats tinyWall .north none DEFAULT_ESTIMATE_CONFIG).brickCount = 1 ∧
    claimedBrickCountDoubleCeil (netWallAreaCm2 tinyWall none) DEFAULT_ESTIMATE_CONFIG = 2 ∧
    (calculateWallStats tinyWall .north none DEFAULT_ESTIMATE_CONFIG).brickCount ≠
      claimedBrickCountDoubleCeil (netWallAreaCm2 tinyWall none) DEFAULT_ESTIMATE_CONFIG := by
  norm_num [calculateWallStats, netWallAreaCm2, claimedBrickCountDoubleCeil,
    calculateOpeningsArea, getWallDefaults, DEFAULT_ESTIMATE_CONFIG, tinyWall,
    calculateBrickCount, ceilQ, Rat.ceil, cm2ToM2]
  simp

/-- C1 (amended): for every existing wall with non-negative resolved length,
height and opening area, the brick count applies a single ceiling after
multiplying the raw quotient by the waste factor:
`ceil(netArea_cm2 / brickUnitArea × wasteFactor)`. -/
theorem brick_count_single_ceil (wall : Wall) (side : WallSide) (d : Option Defaults)
    (cfg : EstimateConfig)
    (hex : (calculateWallStats wall side d cfg).exists_ = true)
    (_hlen : 0 ≤ wall.length.getD 0)
    (_hht : 0 ≤ wall.height.getD (getWallDefaults d).height)
    (_hop : 0 ≤ calculateOpeningsArea wall d) :
    (calculateWallStats wall side d cfg).brickCount =
      ceilQ (netWallAreaCm2 wall d /
        ((cfg.brick.width + cfg.brick.mortarThickness)
          * (cfg.brick.height + cfg.brick.mortarThickness))
        * cfg.brick.wasteFactor) := by
  simp only [calculateWallStats] at hex ⊢
  rw [hex]
  simp [calculateBrickCount, netWallAreaCm2]

/-- Witness for C1's amended theorem at a concrete wall and config. -/
theorem brick_count_single_ceil_witness :
    (calculateWallStats tinyWall .north none DEFAULT_ESTIMATE_CONFIG).brickCount =
      ceilQ (netWallAreaCm2 tinyWall none /
        ((DEFAULT_ESTIMATE_CONFIG.brick.width + DEFAULT_ESTIMATE_CONFIG.brick.mortarThickness)
          * (DEFAULT_ESTIMATE_CONFIG.brick.height + DEFAULT_ESTIMATE_CONFIG.brick.mortarThickness))
        * DEFAULT_ESTIMATE_CONFIG.brick.wasteFactor) :=
  brick_count_single_ceil tinyWall .north none DEFAULT_ESTIMATE_CONFIG rfl
    (by norm_num [tinyWall])
    (by norm_num [tinyWall, getWallDefaults])
    (by norm_num [tinyWall, calculateOpeningsArea])

-- ============================================
-- C5: per-wall areas
-- ============================================

/-- The sum over a wall's openings of resolved width × resolved height
(cm²), as a plain fold. -/
def openingsAreaSum (wall : Wall) (d : Option Defaults) : ℚ :=
  (wall.openings.getD []).foldl (fun total o =>
    total + (o.width.getD (getOpeningDefaults o.type d).width)
      * (o.height.getD (getOpeningDefaults o.type d).height)) 0

theorem calculateOpeningsArea_eq_sum (wall : Wall) (d : Option Defaults) :
    calculateOpeningsArea wall d = openingsAreaSum wall d := by
  unfold calculateOpeningsArea openingsAreaSum
  rcases wall.openings with _ | l
  · rfl
  · rcases l with _ | ⟨o, l⟩ <;> simp [List.isEmpty]

/-- A 10 cm × 10 cm wall with a 20 cm × 10 cm door: total opening area
exceeds the gross wall area. -/
def clampWall : Wall :=
  { length := some 10, height := some 10, thickness := none, exists_ := none
    openings := some [{ type := .door, offset := 0, width := some 20, height := some 10,
                        fromFloor := none, to_ := none }] }

/-- C5 counterexample: when openings exceed the gross area the code clamps
`areaWithoutOpenings` at 0 instead of returning gross − openings. -/
theorem net_area_clamp_counterexample :
    (calculateWallStats clampWall .north none DEFAULT_ESTIMATE_CONFIG).areaWithoutOpenings = 0 ∧
    (calculateWallStats clampWall .north none DEFAULT_ESTIMATE_CONFIG).area -
      (calculateWallStats clampWall .north none DEFAULT_ESTIMATE_CONFIG).openingsArea = -(1/100) ∧
    (calculateWallStats clampWall .north none DEFAULT_ESTIMATE_CONFIG).areaWithoutOpenings ≠
      (calculateWallStats clampWall .north none DEFAULT_ESTIMATE_CONFIG).area -
        (calculateWallStats clampWall .north none DEFAULT_ESTIMATE_CONFIG).openingsArea := by
  norm_num [calculateWallStats, clampWall, calculateOpeningsArea, getOpeningDefaults,
    getWallDefaults, cm2ToM2, List.foldl]

/-- C5 (amended): gross wall area is resolved length × height over 10000;
the openings area is the sum of resolved opening width × height over 10000;
and the net area is the gross minus openings difference clamped at zero
(not the raw difference), again over 10000. -/
theorem wall_area_net_clamped (wall : Wall) (side : WallSide) (d : Option Defaults)
    (cfg : EstimateConfig) :
    (calculateWallStats wall side d cfg).area =
      (wall.length.getD 0) * (wall.height.getD (getWallDefaults d).height) / 10000 ∧
    (calculateWallStats wall side d cfg).openingsArea = openingsAreaSum wall d / 10000 ∧
    (calculateWallStats wall side d cfg).areaWithoutOpenings =
      max 0 ((wall.length.getD 0) * (wall.height.getD (getWallDefaults d).height)
        - openingsAreaSum wall d) / 10000 := by
  refine ⟨rfl, ?_, ?_⟩ <;>
    simp [calculateWallStats, cm2ToM2, calculateOpeningsArea_eq_sum]

-- ============================================
-- C8: room-type inference
-- ============================================

structure KeywordSpec where
  word : String
  alsoId : Bool

structure RoomTypeRule where
  typeName : String
  keywords : List KeywordSpec

/-- Modelled from the spec (amended): the keyword table of the room-type
heuristic.  `alsoId = true` keywords are tested against both id and name;
`alsoId = false` keywords (wc, dormit, lavanderia) are tested against the
name only. -/
def roomTypeRules : List RoomTypeRule :=
  [ { typeName := "sala", keywords := [{ word := "sala", alsoId := true }] },
    { typeName := "cozinha", keywords := [{ word := "cozinha", alsoId := true }] },
    { typeName := "banheiro", keywords := [{ word := "banheiro", alsoId := true },
                                           { word := "wc", alsoId := false }] },
    { typeName := "quarto", keywords := [{ word := "quarto", alsoId := true },
                                         { word := "dormit", alsoId := false }] },
    { typeName := "area-servico", keywords := [{ word := "servico", alsoId := true },
                                               { word := "lavanderia", alsoId := false }] } ]

/-- A rule matches when any of its keywords occurs (case-insensitively) in
the room's id (if `alsoId`) or in its name. -/
def ruleMatches (room : Room) (rule : RoomTypeRule) : Bool :=
  rule.keywords.any (fun kw =>
    (kw.alsoId && strContains (toLowerStr room.id) kw.word)
      || strContains (toLowerStr (room.name.getD "")) kw.word)

/-- First matching rule wins; no match gives the default type. -/
def firstMatch (room : Room) : List RoomTypeRule → String
  | [] => "default"
  | rule :: rest => if ruleMatches room rule then rule.typeName else firstMatch room rest

/-- Modelled from the spec (amended): room type by first-match over the
keyword table. -/
def specRoomType (room : Room) : String := firstMatch room roomTypeRules

/-- A wall with no explicit fields at all. -/
def emptyWall : Wall := { length := none, height := none, thickness := none,
                          exists_ := none, openings := none }

/-- A room whose id contains "wc" but whose name is absent. -/
def wcRoom : Room :=
  { id := "wc", name := none, position := { x := 0, y := 0 }
    walls := { north := emptyWall, east := emptyWall, south := emptyWall, west := emptyWall } }

/-- C8 counterexample: a room whose id alone contains "wc" is NOT
classified as a bathroom — the code checks "wc" (like "dormit" and
"lavanderia") against the name only, so this room gets the default type. -/
theorem wc_id_counterexample :
    getRoomType wcRoom = "default" ∧ getRoomType wcRoom ≠ "banheiro" := by
  constructor <;> decide

/-- C8 (amended): the inferred room type is decided by case-insensitive
substring matching, testing keyword groups in the fixed order sala,
cozinha, banheiro/wc, quarto/dormit, servico/lavanderia with the first
match winning and no match giving the default type — where sala, cozinha,
banheiro, quarto and servico are tested against the id and then the name,
but wc, dormit and lavanderia are tested against the name only. -/
theorem getRoomType_eq_specRoomType (room : Room) : getRoomType room = specRoomType room := by
  simp only [specRoomType, roomTypeRules, firstMatch, ruleMatches, List.any_cons, List.any_nil,
    Bool.true_and, Bool.false_and, Bool.or_false, Bool.false_or, getRoomType]

-- ============================================
-- C7: room geometry
-- ============================================

/-- Modelled from the spec: each side's segment endpoints are the room
position offset by effective width/height per the side, multiplied by the
scale. -/
def specWallEndpoints (room : Room) (side : WallSide) (scale : ℚ) : ℚ × ℚ × ℚ × ℚ :=
  let x := room.position.x
  let y := room.position.y
  let w := max (room.walls.north.length.getD 0) (room.walls.south.length.getD 0)
  let h := max (room.walls.east.length.getD 0) (room.walls.west.length.getD 0)
  match side with
  | .north => (x * scale, y * scale, (x + w) * scale, y * scale)
  | .south => (x * scale, (y + h) * scale, (x + w) * scale, (y + h) * scale)
  | .east => ((x + w) * scale, y * scale, (x + w) * scale, (y + h) * scale)
  | .west => (x * scale, y * scale, x * scale, (y + h) * scale)

/-- Modelled from the spec: an opening's absolute position is
`room.position + offset` projected onto its side's axis, scaled, with
direction equal to that side. -/
def specOpeningGeometry (room : Room) (side : WallSide) (d : Option Defaults) (scale : ℚ)
    (o : Opening) : OpeningGeometry :=
  let r := resolveOpening o d
  let x := room.position.x
  let y := room.position.y
  let w := max (room.walls.north.length.getD 0) (room.walls.south.length.getD 0)
  let h := max (room.walls.east.length.getD 0) (room.walls.west.length.getD 0)
  { type := r.type
    x := match side with
         | .north => (x + r.offset) * scale
         | .south => (x + r.offset) * scale
         | .east => (x + w) * scale
         | .west => x * scale
    y := match side with
         | .north => y * scale
         | .south => (y + h) * scale
         | .east => (y + r.offset) * scale
         | .west => (y + r.offset) * scale
    width := r.width * scale
    height := r.height * scale
    fromFloor := r.fromFloor * scale
    to_ := r.to_
    direction := side }

/-- The 400 × 300 example room at the origin. -/
def room400x300 : Room := simpleRoom "r1" 0 0 400 300

/-- The example plan containing `room400x300` with scale 1. -/
def examplePlan400x300 : FloorPlan :=
  { version := "1", unit := .cm, scale := some 1, defaults := none
    floor := { id := "f", name := none, rooms := [room400x300] } }

/-- C7: room effective width/height are the max of opposite wall lengths
(scaled); each side's segment endpoints follow the per-side formulas; each
opening's absolute position is the room position plus offset projected on
the side's axis (scaled) with direction equal to its side; and on the
400×300 example room at the origin with scale 1 the bounding box is 400×300
with north segment (0,0)-(400,0). -/
theorem room_geometry_spec :
    (∀ (room : Room) (d : Option Defaults) (scale : ℚ),
        (calculateRoomGeometry room d scale).width =
          max (room.walls.north.length.getD 0) (room.walls.south.length.getD 0) * scale ∧
        (calculateRoomGeometry room d scale).height =
          max (room.walls.east.length.getD 0) (room.walls.west.length.getD 0) * scale) ∧
    (∀ (room : Room) (side : WallSide) (d : Option Defaults) (scale : ℚ),
        ((calculateWallGeometry room side d scale).x1, (calculateWallGeometry room side d scale).y1,
         (calculateWallGeometry room side d scale).x2, (calculateWallGeometry room side d scale).y2) =
          specWallEndpoints room side scale ∧
        (calculateWallGeometry room side d scale).openings =
          ((room.walls.get side).openings.getD []).map (specOpeningGeometry room side d scale)) ∧
    ((calculateFloorGeometry examplePlan400x300).width = 400 ∧
     (calculateFloorGeometry examplePlan400x300).height = 300 ∧
     (calculateFloorGeometry examplePlan400x300).rooms.map (fun r =>
        (r.walls.north.x1, r.walls.north.y1, r.walls.north.x2, r.walls.north.y2)) =
       [(0, 0, 400, 0)]) := by
  refine ⟨fun room d scale => ⟨rfl, rfl⟩, fun room side d scale => ?_, ?_⟩
  · cases side <;> exact ⟨rfl, rfl⟩
  · norm_num [calculateFloorGeometry, calculateRoomGeometry, calculateWallGeometry,
      examplePlan400x300, room400x300, simpleRoom, lenWall, resolveWall, List.foldl]

-- ============================================
-- C3: duplicate-wall detection
-- ============================================

/-- The spec's duplicate-wall condition on a pair of wall segments:
different rooms, both walls exist, same orientation, fixed coordinate
within 1 unit, and overlapping range on the other axis by more than
1 unit. -/
def DupWarningConditions (w1 w2 : WallSegment) : Prop :=
  w1.roomId ≠ w2.roomId ∧ w1.exists_ = true ∧ w2.exists_ = true ∧
    ((w1.y1 = w1.y2 ∧ w2.y1 = w2.y2 ∧ |w1.y1 - w2.y1| ≤ 1 ∧
        min (max w1.x1 w1.x2) (max w2.x1 w2.x2)
          - max (min w1.x1 w1.x2) (min w2.x1 w2.x2) > 1) ∨
      (¬w1.y1 = w1.y2 ∧ ¬w2.y1 = w2.y2 ∧ |w1.x1 - w2.x1| ≤ 1 ∧
        min (max w1.y1 w1.y2) (max w2.y1 w2.y2)
          - max (min w1.y1 w1.y2) (min w2.y1 w2.y2) > 1))

theorem wallsOverlap_iff (w1 w2 : WallSegment) :
    wallsOverlap w1 w2 = true ↔
      ((w1.y1 = w1.y2 ∧ w2.y1 = w2.y2 ∧ |w1.y1 - w2.y1| ≤ 1 ∧
          min (max w1.x1 w1.x2) (max w2.x1 w2.x2)
            - max (min w1.x1 w1.x2) (min w2.x1 w2.x2) > 1) ∨
        (¬w1.y1 = w1.y2 ∧ ¬w2.y1 = w2.y2 ∧ |w1.x1 - w2.x1| ≤ 1 ∧
          min (max w1.y1 w1.y2) (max w2.y1 w2.y2)
            - max (min w1.y1 w1.y2) (min w2.y1 w2.y2) > 1)) := by
  simp only [wallsOverlap]
  rcases Decidable.em (w1.y1 = w1.y2) with h1 | h1 <;>
    rcases Decidable.em (w2.y1 = w2.y2) with h2 | h2
  · rw [decide_eq_true h1, decide_eq_true h2, if_neg (by decide), if_pos rfl]
    rcases le_or_lt |w1.y1 - w2.y1| 1 with h3 | h3
    · rw [if_neg (not_lt.mpr h3)]
      constructor
      · intro hE
        exact Or.inl ⟨h1, h2, h3, by simpa using hE⟩
      · rintro (⟨-, -, -, hE⟩ | ⟨hn, -, -, -⟩)
        · simpa using hE
        · exact absurd h1 hn
    · rw [if_pos h3]
      simp only [Bool.false_eq_true, false_iff]
      rintro (⟨-, -, hle, -⟩ | ⟨hn, -, -, -⟩)
      · exact absurd h3 (not_lt.mpr hle)
      · exact absurd h1 hn
  · rw [decide_eq_true h1, decide_eq_false h2, if_pos (by decide)]
    simp only [Bool.false_eq_true, false_iff]
    rintro (⟨-, hh2, -, -⟩ | ⟨hn1, -, -, -⟩)
    · exact h2 hh2
    · exact hn1 h1
  · rw [decide_eq_false h1, decide_eq_true h2, if_pos (by decide)]
    simp only [Bool.false_eq_true, false_iff]
    rintro (⟨hh1, -, -, -⟩ | ⟨-, hn2, -, -⟩)
    · exact h1 hh1
    · exact hn2 h2
  · rw [decide_eq_false h1, decide_eq_false h2, if_neg (by decide), if_neg (by decide)]
    rcases le_or_lt |w1.x1 - w2.x1| 1 with h3 | h3
    · rw [if_neg (not_lt.mpr h3)]
      constructor
      · intro hE
        exact Or.inr ⟨h1, h2, h3, by simpa using hE⟩
      · rintro (⟨hh1, -, -, -⟩ | ⟨-, -, -, hE⟩)
        · exact absurd hh1 h1
        · simpa using hE
    · rw [if_pos h3]
      simp only [Bool.false_eq_true, false_iff]
      rintro (⟨hh1, -, -, -⟩ | ⟨-, -, hle, -⟩)
      · exact absurd hh1 h1
      · exact absurd h3 (not_lt.mpr hle)

theorem dupPass_iff (w1 w2 : WallSegment) :
    dupPass w1 w2 = true ↔ DupWarningConditions w1 w2 := by
  unfold dupPass DupWarningConditions
  simp only [Bool.and_eq_true, decide_eq_true_eq, wallsOverlap_iff, and_assoc]

/-- C3: `detectDuplicateWalls` emits exactly the warnings for ordered pairs
of wall segments of different rooms where both walls exist, the segments
have the same orientation, their fixed coordinate differs by at most 1 and
their ranges overlap by more than 1; a pair with at least one `exists:false`
wall passes the filter for no pair, producing zero warnings. -/
theorem duplicate_wall_characterization :
    (∀ (rooms : List Room) (issue : ValidationIssue),
        issue ∈ detectDuplicateWalls rooms ↔
          ∃ p ∈ orderedPairs (allWallSegments rooms),
            issue = dupIssueOf p.1 p.2 ∧ DupWarningConditions p.1 p.2) ∧
    (∀ w1 w2 : WallSegment, w1.exists_ = false ∨ w2.exists_ = false →
        dupPass w1 w2 = false) := by
  constructor
  · intro rooms issue
    simp only [detectDuplicateWalls, List.mem_map, List.mem_filter]
    constructor
    · rintro ⟨p, ⟨hp, hpass⟩, rfl⟩
      exact ⟨p, hp, rfl, (dupPass_iff p.1 p.2).mp hpass⟩
    · rintro ⟨p, hp, rfl, hcond⟩
      exact ⟨p, ⟨hp, (dupPass_iff p.1 p.2).mpr hcond⟩, rfl⟩
  · intro w1 w2 h
    rcases h with h | h <;> simp [dupPass, h]

/-- An east wall segment marked virtual (`exists:false`). -/
def segVirtualEast : WallSegment :=
  { roomId := "a", roomName := "a", side := .east, x1 := 300, y1 := 0, x2 := 300, y2 := 300,
    exists_ := false }

/-- A coincident west wall segment of another room, existing. -/
def segWestOther : WallSegment :=
  { roomId := "b", roomName := "b", side := .west, x1 := 300, y1 := 0, x2 := 300, y2 := 300,
    exists_ := true }

/-- Witness for C3: a coincident pair with one virtual wall is filtered
out. -/
theorem duplicate_wall_characterization_witness :
    dupPass segVirtualEast segWestOther = false :=
  duplicate_wall_characterization.2 segVirtualEast segWestOther (Or.inl rfl)

-- ============================================
-- C4: room-overlap detection
-- ============================================

theorem rectanglesOverlap_eq_some_iff (r1 r2 : RoomBounds) (o : OverlapRect) :
    rectanglesOverlap r1 r2 = some o ↔
      (min (r1.x + r1.width) (r2.x + r2.width) - max r1.x r2.x > 1 ∧
       min (r1.y + r1.height) (r2.y + r2.height) - max r1.y r2.y > 1 ∧
       o = { x := max r1.x r2.x, y := max r1.y r2.y,
             width := min (r1.x + r1.width) (r2.x + r2.width) - max r1.x r2.x,
             height := min (r1.y + r1.height) (r2.y + r2.height) - max r1.y r2.y }) := by
  simp only [rectanglesOverlap]
  split_ifs with h
  · simp only [Option.some.injEq]
    constructor
    · intro he
      exact ⟨h.1, h.2, he.symm⟩
    · rintro ⟨-, -, rfl⟩
      rfl
  · constructor
    · intro he
      simp at he
    · rintro ⟨hA, hB, -⟩
      exact absurd ⟨hA, hB⟩ h

/-- Does an issue have the `overlap` type? -/
def isOverlapIssue (i : ValidationIssue) : Bool :=
  match i.type with
  | .overlap => true
  | _ => false

/-- Two 300×300 rooms at (0,0) and (200,0): their boxes overlap on
x ∈ [200,300], y ∈ [0,300]. -/
def overlapExamplePlan : FloorPlan :=
  { version := "1", unit := .cm, scale := none, defaults := none
    floor := { id := "f", name := none
               rooms := [simpleRoom "a" 0 0 300 300, simpleRoom "b" 200 0 300 300] } }

/-- The single overlap error expected on `overlapExamplePlan`. -/
def expectedOverlapIssue : ValidationIssue :=
  { id := "overlap-a-b", severity := .error, type := .overlap
    message := "\"a\" sobrepõe \"b\"", roomIds := ["a", "b"]
    details := some { wallSide := none, overlapArea := some { x := 200, y := 0, width := 100, height := 300 },
                      wallPosition := none } }

/-- C4: `detectOverlaps` reports an issue exactly for the ordered pairs of
room bounding boxes whose intersection has width and height both strictly
greater than 1, and the issue carries the exact intersection rectangle; on
the two-room 300×300 example at (0,0)/(200,0), `validateFloorPlan` yields
exactly one overlap error with rectangle (200, 0, 100, 300). -/
theorem overlap_error_characterization :
    (∀ (rooms : List Room) (issue : ValidationIssue),
        issue ∈ detectOverlaps rooms ↔
          ∃ p ∈ orderedPairs (rooms.map getRoomBounds),
            min (p.1.x + p.1.width) (p.2.x + p.2.width) - max p.1.x p.2.x > 1 ∧
            min (p.1.y + p.1.height) (p.2.y + p.2.height) - max p.1.y p.2.y > 1 ∧
            issue = overlapIssueOf p.1 p.2
              { x := max p.1.x p.2.x, y := max p.1.y p.2.y,
                width := min (p.1.x + p.1.width) (p.2.x + p.2.width) - max p.1.x p.2.x,
                height := min (p.1.y + p.1.height) (p.2.y + p.2.height) - max p.1.y p.2.y }) ∧
    (validateFloorPlan overlapExamplePlan).filter isOverlapIssue = [expectedOverlapIssue] := by
  constructor
  · intro rooms issue
    simp only [detectOverlaps, List.mem_filterMap]
    constructor
    · rintro ⟨p, hp, hsome⟩
      rcases Option.map_eq_some'.mp hsome with ⟨o, ho, hiss⟩
      rcases (rectanglesOverlap_eq_some_iff p.1 p.2 o).mp ho with ⟨hA, hB, rfl⟩
      exact ⟨p, hp, hA, hB, hiss.symm⟩
    · rintro ⟨p, hp, hA, hB, rfl⟩
      refine ⟨p, hp, ?_⟩
      rw [(rectanglesOverlap_eq_some_iff p.1 p.2 _).mpr ⟨hA, hB, rfl⟩]
      rfl
  · norm_num [validateFloorPlan, overlapExamplePlan, simpleRoom, lenWall,
      detectInvalidDimensions, detectOverlaps, detectDuplicateWalls, allWallSegments,
      getWallSegment, getRoomBounds, rectanglesOverlap, wallsOverlap, dupPass,
      dupIssueOf, overlapIssueOf, invalidDimIssueOf, expectedOverlapIssue, isOverlapIssue,
      sideStr, orderedPairs, Walls.get, List.filter_cons, List.filterMap_cons]
    simp
    rintro a x x2 (⟨rfl, rfl⟩ | ⟨rfl, rfl⟩) rfl <;> rfl

/-- Witness for C4: the concrete single-overlap-error example, via the
characterization theorem. -/
theorem overlap_error_characterization_witness :
    (validateFloorPlan overlapExamplePlan).filter isOverlapIssue = [expectedOverlapIssue] :=
  overlap_error_characterization.2

-- ============================================
-- C6: degenerate rooms
-- ============================================

/-- A room whose north wall has length 0 but whose south wall is 300 long:
its effective width is max(0, 300) = 300, so it is not degenerate. -/
def northZeroRoom : Room :=
  { id := "r1", name := none, position := { x := 0, y := 0 }
    walls := { north := lenWall 0, east := lenWall 300, south := lenWall 300, west := lenWall 300 } }

/-- A plan containing only `northZeroRoom`. -/
def northZeroPlan : FloorPlan :=
  { version := "1", unit := .cm, scale := none, defaults := none
    floor := { id := "f", name := none, rooms := [northZeroRoom] } }

/-- C6 counterexample: a room with north.length = 0 (south 300) produces no
validation issue at all — effective width is the max of the opposite walls
— and its statistics contributions are positive (floor area 9 m², 882
bricks). -/
theorem north_zero_counterexample :
    northZeroRoom.walls.north.length.getD 0 = 0 ∧
    validateFloorPlan northZeroPlan = [] ∧
    (calculateRoomStats northZeroRoom none DEFAULT_ESTIMATE_CONFIG).floorArea = 9 ∧
    (calculateRoomStats northZeroRoom none DEFAULT_ESTIMATE_CONFIG).brickCount = 882 := by
  refine ⟨rfl, ?_, ?_, ?_⟩ <;>
    (norm_num [validateFloorPlan, northZeroPlan, northZeroRoom, lenWall, detectInvalidDimensions,
      detectOverlaps, detectDuplicateWalls, allWallSegments, getWallSegment, getRoomBounds,
      rectanglesOverlap, wallsOverlap, dupPass, orderedPairs, Walls.get, calculateRoomStats,
      calculateWallStats, calculateOpeningsArea, calculateBrickCount, getWallDefaults,
      cm2ToM2, cmToM, ceilQ, Rat.ceil, DEFAULT_ESTIMATE_CONFIG, List.filter_cons,
      List.filterMap_cons] <;> (simp <;> norm_num))

/-- C6 (amended): a room whose north AND south wall lengths both resolve
to ≤ 0 (so its effective width is ≤ 0) is flagged with an
invalid-dimension error naming it by `validateFloorPlan` on any plan
containing it; and when both lengths are exactly 0 its floor-area and
volume statistics are exactly 0 (its wall areas and brick counts of the
east/west walls may remain positive). -/
theorem degenerate_room_flag (plan : FloorPlan) (room : Room) (d : Option Defaults)
    (cfg : EstimateConfig)
    (hmem : room ∈ plan.floor.rooms)
    (hN : room.walls.north.length.getD 0 ≤ 0)
    (hS : room.walls.south.length.getD 0 ≤ 0) :
    invalidDimIssueOf room ∈ validateFloorPlan plan ∧
    (room.walls.north.length.getD 0 = 0 → room.walls.south.length.getD 0 = 0 →
      (calculateRoomStats room d cfg).floorArea = 0 ∧
      (calculateRoomStats room d cfg).volume = 0) := by
  have hw : (getRoomBounds room).width ≤ 0 := by
    simpa [getRoomBounds] using max_le hN hS
  constructor
  · have hmem' : invalidDimIssueOf room ∈ detectInvalidDimensions plan.floor.rooms := by
      simp only [detectInvalidDimensions, List.mem_filterMap]
      refine ⟨room, hmem, ?_⟩
      show (if (getRoomBounds room).width ≤ 0 ∨ (getRoomBounds room).height ≤ 0
        then some (invalidDimIssueOf room) else none) = some (invalidDimIssueOf room)
      rw [if_pos (Or.inl hw)]
    have hne : plan.floor.rooms ≠ [] := List.ne_nil_of_mem hmem
    simp only [validateFloorPlan]
    rw [if_neg (by simpa using hne)]
    exact List.mem_append_left _ (List.mem_append_left _ hmem')
  · intro h0 h0'
    constructor <;> simp [calculateRoomStats, cm2ToM2, h0, h0']

/-- A room with zero-length north and south walls. -/
def degenerateRoom : Room :=
  { id := "r0", name := none, position := { x := 0, y := 0 }
    walls := { north := lenWall 0, east := lenWall 300, south := lenWall 0, west := lenWall 300 } }

/-- A plan containing only `degenerateRoom`. -/
def degeneratePlan : FloorPlan :=
  { version := "1", unit := .cm, scale := none, defaults := none
    floor := { id := "f", name := none, rooms := [degenerateRoom] } }

/-- Witness for C6's amended theorem at a concrete degenerate room. -/
theorem degenerate_room_flag_witness :
    invalidDimIssueOf degenerateRoom ∈ validateFloorPlan degeneratePlan ∧
    (calculateRoomStats degenerateRoom none DEFAULT_ESTIMATE_CONFIG).floorArea = 0 ∧
    (calculateRoomStats degenerateRoom none DEFAULT_ESTIMATE_CONFIG).volume = 0 := by
  have h := degenerate_room_flag degeneratePlan degenerateRoom none DEFAULT_ESTIMATE_CONFIG
    (by simp [degeneratePlan]) (by norm_num [degenerateRoom, lenWall])
    (by norm_num [degenerateRoom, lenWall])
  exact ⟨h.1, (h.2 (by norm_num [degenerateRoom, lenWall]) (by norm_num [degenerateRoom, lenWall])).1,
    (h.2 (by norm_num [degenerateRoom, lenWall]) (by norm_num [degenerateRoom, lenWall])).2⟩
